import Mathlib

/-!
Shallow embedding of the coffee-order observability demo service
(Go sources under service/ and the pgx-based data layer), together with
theorems settling the specification claims about it.

Conventions of the embedding:
* machine integers are `Nat`/`Int`; timestamps are `Int` nanoseconds
  (Go `time.Time.UnixNano`);
* fallible Go calls return `Except`/`Option`;
* the relational store is a `Store` value; the SQL statements the code
  issues are embedded as pure state transformers on it;
* external inputs a handler reads (decoded body, driver outcome, clock
  reading) are explicit parameters.
-/

namespace CoffeeDemo

/-- Nanoseconds in one second (Go `time.Second`). -/
def secondNs : Int := 1000000000

/-- Nanoseconds in one hour (Go `time.Hour`). -/
def hourNs : Int := 3600 * secondNs

/-- Transient request body `CreateCoffeeOrder` (service/models.go):
`user_name` and `coffee_type`, unvalidated beyond deserialization. -/
structure CreateCoffeeOrder where
  userName : String
  coffeeType : String
deriving DecidableEq, Repr

/-- Persisted entity `CoffeeOrder` (service/models.go): id assigned by the
store, two caller-supplied text columns, creation timestamp. -/
structure CoffeeOrder where
  id : Nat
  userName : String
  coffeeType : String
  createdAt : Int
deriving DecidableEq, Repr

/-- Health-check response body `HealthResponse` (service/models.go lines
21-25): fields `status`, `timestamp`, `database` - and no others. -/
structure HealthResponse where
  status : String
  timestamp : Int
  database : String
deriving DecidableEq, Repr

/-- Error response body `ErrorResponse` (service/models.go): one field
`error`. -/
structure ErrorResponse where
  error : String
deriving DecidableEq, Repr

/-- Error values the pgx driver can hand to the data-access layer:
the no-rows sentinel `pgx.ErrNoRows`, a server error `pgconn.PgError`
carrying its SQLSTATE code, or a transport failure. -/
inductive PgErr where
  | noRows
  | pgError (code : String) (msg : String)
  | ioFailure (msg : String)
deriving DecidableEq, Repr

/-- The SQLSTATE code for a Postgres uniqueness-constraint violation;
the repository compares against this code ("23505") in the superseded
create handler of service/main.go. -/
def uniqueViolationCode : String := "23505"

/-- The relational store: the `coffee_orders` table plus its serial-id
sequence. -/
structure Store where
  rows : List CoffeeOrder
  nextId : Nat
deriving DecidableEq, Repr

/-- Embedding of `INSERT INTO coffee_orders (user_name, coffee_type)
VALUES ($1, $2) RETURNING id, user_name, coffee_type, created_at`: the
store assigns the serial id and defaults `created_at` to the current
timestamp, and the returned row is the row just written. -/
def insertOrder (s : Store) (now : Int) (o : CreateCoffeeOrder) :
    Store × CoffeeOrder :=
  let row : CoffeeOrder := ⟨s.nextId, o.userName, o.coffeeType, now⟩
  (⟨s.rows ++ [row], s.nextId + 1⟩, row)

/-- Embedding of `INSERT INTO coffee_orders (user_name, coffee_type,
created_at) VALUES ($1, $2, $3) RETURNING ...`: like `insertOrder` but the
caller supplies the timestamp. -/
def insertOrderAt (s : Store) (o : CreateCoffeeOrder) (ts : Int) :
    Store × CoffeeOrder :=
  let row : CoffeeOrder := ⟨s.nextId, o.userName, o.coffeeType, ts⟩
  (⟨s.rows ++ [row], s.nextId + 1⟩, row)

namespace Database

/-- Method `Database.GetCoffeeOrder` (data layer, lines 88-104): runs the
single-row SELECT through the driver and passes the driver outcome through
unchanged (`if err != nil { return nil, err }; return &order, nil`). The
driver outcome of `QueryRow(...).Scan(...)` is the explicit argument. -/
def GetCoffeeOrder (driverResult : Except PgErr CoffeeOrder) :
    Except PgErr CoffeeOrder :=
  match driverResult with
  | .error err => .error err
  | .ok order => .ok order

/-- Method `Database.CreateCoffeeOrder` (data layer, lines 107-118): runs
the INSERT through the driver and passes the driver outcome through
unchanged. -/
def CreateCoffeeOrder (driverResult : Except PgErr CoffeeOrder) :
    Except PgErr CoffeeOrder :=
  match driverResult with
  | .error err => .error err
  | .ok created => .ok created

/-- Method `Database.CreateCoffeeOrderInOneHour` (data layer, lines
121-131): inserts with `created_at` set to `time.Now().Add(2 * time.Hour)`
(despite the name, the offset in the source is two hours). -/
def CreateCoffeeOrderInOneHour (s : Store) (now : Int)
    (order : CoffeeDemo.CreateCoffeeOrder) : Store × CoffeeOrder :=
  insertOrderAt s order (now + 2 * hourNs)

end Database

/-- Error kinds named by the specification's data-access contract. -/
inductive SpecDbErrorKind where
  | notFoundError
  | duplicateError
  | queryError
deriving DecidableEq, Repr

/-- Modelled from the spec: classification of a `GetOrder` failure,
"no row found is a distinct error kind from a transport/query error".
Stated as a function of the error value the layer returns, to compare the
spec taxonomy with the source's pass-through behaviour. -/
def specGetOrderKind : PgErr → SpecDbErrorKind
  | .noRows => .notFoundError
  | .pgError _ _ => .queryError
  | .ioFailure _ => .queryError

/-- Modelled from the spec: classification of a `CreateOrder` failure,
"a uniqueness-constraint violation from the underlying store surfaces as
a distinct DuplicateError kind, not a generic failure". -/
def specCreateOrderKind : PgErr → SpecDbErrorKind
  | .pgError code _ =>
      if code = uniqueViolationCode then .duplicateError else .queryError
  | .noRows => .queryError
  | .ioFailure _ => .queryError

/-- Configuration record `Config` (service/config.go lines 6-14). -/
structure Config where
  dbHost : String
  dbPort : String
  dbName : String
  dbUser : String
  dbPassword : String
  region : String
  port : String
deriving DecidableEq, Repr

/-- Go `os.Getenv`: an unset variable reads as the empty string. The
process environment is embedded as a partial map. -/
def osGetenv (env : String → Option String) (key : String) : String :=
  (env key).getD ""

/-- Function `getEnv` (service/config.go lines 30-35): return the
variable's value unless it is empty, else the default. -/
def getEnv (env : String → Option String) (key defaultValue : String) :
    String :=
  let value := osGetenv env key
  if value ≠ "" then value else defaultValue

/-- Function `LoadConfig` (service/config.go lines 17-27). -/
def LoadConfig (env : String → Option String) : Config :=
  { dbHost := getEnv env "DB_HOST" "localhost"
    dbPort := getEnv env "DB_PORT" "5432"
    dbName := getEnv env "DB_NAME" "observability_demo"
    dbUser := getEnv env "DB_USER" "postgres"
    dbPassword := getEnv env "DB_PASSWORD" "password"
    region := getEnv env "AWS_REGION" "eu-central-1"
    port := getEnv env "PORT" "8080" }

/-- The documented defaults for the seven parameters. -/
def defaultConfig : Config :=
  ⟨"localhost", "5432", "observability_demo", "postgres", "password",
    "eu-central-1", "8080"⟩

/-- Possible JSON response bodies the embedded handlers produce. -/
inductive Body where
  | orderBody (o : CoffeeOrder)
  | errBody (e : ErrorResponse)
  | healthBody (h : HealthResponse)
deriving DecidableEq, Repr

/-- Field names of the JSON object `encoding/json` produces for each body,
read off the struct tags in service/models.go. -/
def Body.jsonFields : Body → List String
  | .orderBody _ => ["id", "user_name", "coffee_type", "created_at"]
  | .errBody _ => ["error"]
  | .healthBody _ => ["status", "timestamp", "database"]

/-- Value of the `database` field of a body, when it has one. -/
def Body.databaseField : Body → Option String
  | .healthBody h => some h.database
  | _ => none

/-- An HTTP response as the handlers build it: status code, Content-Type
header, JSON body. A handler that never calls `WriteHeader` gets the
net/http default status 200 on the first body write. -/
structure Response where
  status : Nat
  contentType : String
  body : Body
deriving DecidableEq, Repr

/-- Method `returnErrorResponse` (service/app.go lines 226-245): log the
error, then answer 500 with `ErrorResponse{Error: message}`. -/
def returnErrorResponse (message : String) : Response :=
  ⟨500, "application/json", .errBody ⟨message⟩⟩

/-- Outcome of `json.NewDecoder(r.Body).Decode(&coffeeOrder)`. -/
inductive DecodeResult where
  | ok (o : CreateCoffeeOrder)
  | malformed
deriving DecidableEq, Repr

/-- A call a handler issues to the data-access layer, recorded so that
claims about which calls happen (and with what arguments) are statable. -/
inductive DbCall where
  | create (o : CreateCoffeeOrder)
  | createAt (o : CreateCoffeeOrder) (ts : Int)
  | getById (id : Nat)
deriving DecidableEq, Repr

/-- Result of running a handler: the store afterwards, the response
written, and the data-access calls performed. -/
structure HandlerResult where
  store : Store
  response : Response
  dbCalls : List DbCall
deriving DecidableEq, Repr

/-- Handler `createCoffeeOrderMatusHandler` (service/app.go lines 175-201):
decode the body, replace its coffee type with the fixed string
"borovicka" keeping the user name, insert, and on success answer 201 with
the created row. `dbErr` is the driver outcome of the INSERT (`none` means
it succeeded). -/
def createCoffeeOrderMatusHandler (s : Store) (now : Int)
    (decoded : DecodeResult) (dbErr : Option PgErr) : HandlerResult :=
  match decoded with
  | .malformed => ⟨s, returnErrorResponse "Invalid JSON", []⟩
  | .ok coffeeOrder =>
    let modifiedOrder : CreateCoffeeOrder := ⟨coffeeOrder.userName, "borovicka"⟩
    match dbErr with
    | some _ =>
        ⟨s, returnErrorResponse "Failed to create coffee order",
          [.create modifiedOrder]⟩
    | none =>
        let res := insertOrder s now modifiedOrder
        ⟨res.1, ⟨201, "application/json", .orderBody res.2⟩,
          [.create modifiedOrder]⟩

/-- Handler `createCoffeeOrderHonzaHandler` (service/app.go lines 106-114):
decode the body, then unconditionally answer with an error response; no
data-access call is ever made. -/
def createCoffeeOrderHonzaHandler (s : Store) (decoded : DecodeResult) :
    HandlerResult :=
  match decoded with
  | .malformed => ⟨s, returnErrorResponse "Invalid JSON", []⟩
  | .ok _ => ⟨s, returnErrorResponse "Honza's endpoint is broken", []⟩

/-- Handler `createCoffeeOrderMilaHandler` (service/app.go lines 203-223):
decode the body, insert through `Database.CreateCoffeeOrderInOneHour`, and
on success answer 201 with the created row. -/
def createCoffeeOrderMilaHandler (s : Store) (now : Int)
    (decoded : DecodeResult) (dbErr : Option PgErr) : HandlerResult :=
  match decoded with
  | .malformed => ⟨s, returnErrorResponse "Invalid JSON", []⟩
  | .ok coffeeOrder =>
    match dbErr with
    | some _ =>
        ⟨s, returnErrorResponse "Failed to create coffee order",
          [.createAt coffeeOrder (now + 2 * hourNs)]⟩
    | none =>
        let res := Database.CreateCoffeeOrderInOneHour s now coffeeOrder
        ⟨res.1, ⟨201, "application/json", .orderBody res.2⟩,
          [.createAt coffeeOrder (now + 2 * hourNs)]⟩

/-- Handler `healthHandler` (service/app.go lines 35-55): ping the store,
report "healthy"/"unhealthy" accordingly, and always answer with the
`HealthResponse` body; the handler never writes an explicit status code,
so the response status is the net/http default 200. `pingOk` is the
outcome of `app.db.Ping(ctx)`. -/
def healthHandler (pingOk : Bool) (now : Int) : Response :=
  let dbStatus := if pingOk then "healthy" else "unhealthy"
  ⟨200, "application/json", .healthBody ⟨"healthy", now, dbStatus⟩⟩

/-- Result of running the Tom handler under a virtual clock. -/
structure TomRun where
  result : HandlerResult
  insertAttemptTime : Option Int
  responseTime : Int
deriving DecidableEq, Repr

/-- Handler `createCoffeeOrderTomHandler` (service/app.go lines 77-104)
with an explicit virtual clock: after decoding, `time.Sleep(3 *
time.Second)` advances the clock by exactly three seconds, then the INSERT
runs. `dDecode` and `dInsert` are the (nonnegative) durations decoding and
the insert take; the run records when the insert was attempted and when
the response was written. -/
def createCoffeeOrderTomHandler (s : Store) (t0 dDecode dInsert : Int)
    (decoded : DecodeResult) (dbErr : Option PgErr) : TomRun :=
  match decoded with
  | .malformed =>
      ⟨⟨s, returnErrorResponse "Invalid JSON", []⟩, none, t0 + dDecode⟩
  | .ok coffeeOrder =>
    let tInsert := t0 + dDecode + 3 * secondNs
    match dbErr with
    | some _ =>
        ⟨⟨s, returnErrorResponse "Failed to create coffee order",
            [.create coffeeOrder]⟩, some tInsert, tInsert + dInsert⟩
    | none =>
        let res := insertOrder s tInsert coffeeOrder
        ⟨⟨res.1, ⟨201, "application/json", .orderBody res.2⟩,
            [.create coffeeOrder]⟩, some tInsert, tInsert + dInsert⟩

/-- Handlers bound by `setupRoutes` (routes file, current iteration). -/
inductive HandlerId where
  | health
  | getOrder
  | tom
  | honza
  | marek
  | viking
  | matus
  | mila
deriving DecidableEq, Repr

/-- Routing table from `setupRoutes`: GET /health, GET /coffee/:id, and
one POST route per person-specific create handler. -/
def routeHandler (method path : String) : Option HandlerId :=
  if method = "GET" then
    if path = "/health" then some .health
    else if path.startsWith "/coffee/" then some .getOrder
    else none
  else if method = "POST" then
    if path = "/make-coffee-tom" then some .tom
    else if path = "/make-coffee-honza" then some .honza
    else if path = "/make-coffee-marek" then some .marek
    else if path = "/make-coffee-viking" then some .viking
    else if path = "/make-coffee-matus" then some .matus
    else if path = "/make-coffee-mila" then some .mila
    else none
  else none

/-- State of the `responseWriter` wrapper (service/app.go lines 25-33,
service/main.go lines 751-760): the recorded `statusCode` field, plus the
status the wrapped net/http writer has actually committed to the client
(net/http honours only the first `WriteHeader` call and ignores the
superfluous rest). -/
structure ResponseWriterState where
  statusCode : Nat
  underlyingSent : Option Nat
deriving DecidableEq, Repr

/-- Method `responseWriter.WriteHeader`: `rw.statusCode = code;
rw.ResponseWriter.WriteHeader(code)`. The recorded field is overwritten on
every call; the underlying writer keeps the first committed code. -/
def WriteHeader (rw : ResponseWriterState) (code : Nat) :
    ResponseWriterState :=
  ⟨code,
    match rw.underlyingSent with
    | some c => some c
    | none => some code⟩

/-- Construction `&responseWriter{ResponseWriter: w, statusCode:
http.StatusOK}`: recorded code starts at 200, nothing committed yet. -/
def newResponseWriter : ResponseWriterState := ⟨200, none⟩

/-- Runs a sequence of `WriteHeader` calls against a wrapper. -/
def runWriteHeaders (init : ResponseWriterState) (codes : List Nat) :
    ResponseWriterState :=
  codes.foldl WriteHeader init

/-- Final status of a span: ok or error, each with a message. -/
inductive SpanStatus where
  | ok (msg : String)
  | err (msg : String)
deriving DecidableEq, Repr

/-- What the tracing middleware records on its span. -/
structure SpanRecord where
  name : String
  httpStatusAttr : Nat
  finalStatus : SpanStatus
deriving DecidableEq, Repr

/-- Middleware `tracingMiddleware` (middleware file, lines 329-367): start
a span named `fmt.Sprintf("%s %s", r.Method, r.URL.Path)`, run the inner
chain against a fresh wrapper, then record the wrapper's captured code as
the `http.status_code` attribute and set the final status: error with
message `fmt.Sprintf("HTTP %d", code)` when the captured code is >= 400,
ok (empty message) otherwise. `innerWrites` is the sequence of
`WriteHeader` calls the inner chain performs. -/
def tracingMiddleware (method path : String) (innerWrites : List Nat) :
    SpanRecord :=
  let wrapped := runWriteHeaders newResponseWriter innerWrites
  ⟨method ++ " " ++ path,
    wrapped.statusCode,
    if wrapped.statusCode ≥ 400 then
      .err ("HTTP " ++ toString wrapped.statusCode)
    else
      .ok ""⟩

/-- Observable actions on the response writer, used to order header
writes against body writes. -/
inductive WriterEvent where
  | setHeader (name value : String)
  | bodyWrite
deriving DecidableEq, Repr

/-- Middleware `responseHeadersMiddleware` (middleware file, lines
386-403): set `X-Request-ID` when the context id is non-empty and
`X-Trace-ID` when the span context is valid, then run the inner chain
(whose writer events follow). -/
def responseHeadersMiddleware (requestId : String) (traceValid : Bool)
    (traceId : String) (innerEvents : List WriterEvent) :
    List WriterEvent :=
  (if requestId ≠ "" then [WriterEvent.setHeader "X-Request-ID" requestId]
   else [])
  ++ (if traceValid then [WriterEvent.setHeader "X-Trace-ID" traceId]
      else [])
  ++ innerEvents

/-- Function `generateRequestID` (service/utils.go lines 9-11): the
decimal rendering of `time.Now().UnixNano()`. The observed clock reading
is the explicit argument. -/
def generateRequestID (unixNano : Nat) : String := toString unixNano

/-- A request as the correlation-id stage sees it: the id the upstream
request-id middleware put in the context (empty when absent) and the
nanosecond clock reading this request observes, plus the remote address to
tell requests apart. -/
structure InboundRequest where
  remoteAddr : String
  upstreamId : String
  clockReading : Nat
deriving DecidableEq, Repr

/-- Correlation-id assignment (service/main.go lines 274-284): keep the
upstream id when non-empty, otherwise fall back to `generateRequestID`. -/
def assignRequestId (r : InboundRequest) : String :=
  if r.upstreamId = "" then generateRequestID r.clockReading
  else r.upstreamId

/-! Helper lemmas about the response-writer wrapper. -/

theorem runWriteHeaders_statusCode (codes : List Nat) :
    ∀ init : ResponseWriterState,
      (runWriteHeaders init codes).statusCode
        = codes.getLastD init.statusCode := by
  induction codes with
  | nil => intro init; rfl
  | cons c cs ih =>
    intro init
    show (runWriteHeaders (WriteHeader init c) cs).statusCode = _
    rw [ih (WriteHeader init c), List.getLastD_cons]
    rfl

theorem runWriteHeaders_underlying_some (codes : List Nat) :
    ∀ (st : ResponseWriterState) (c0 : Nat), st.underlyingSent = some c0 →
      (runWriteHeaders st codes).underlyingSent = some c0 := by
  induction codes with
  | nil => intro st c0 h; exact h
  | cons c cs ih =>
    intro st c0 h
    show (runWriteHeaders (WriteHeader st c) cs).underlyingSent = some c0
    exact ih (WriteHeader st c) c0 (by simp [WriteHeader, h])

theorem runWriteHeaders_underlying_none (codes : List Nat) :
    ∀ st : ResponseWriterState, st.underlyingSent = none →
      (runWriteHeaders st codes).underlyingSent = codes.head? := by
  induction codes with
  | nil => intro st h; exact h
  | cons c cs ih =>
    intro st h
    show (runWriteHeaders (WriteHeader st c) cs).underlyingSent = some c
    exact runWriteHeaders_underlying_some cs (WriteHeader st c) c
      (by simp [WriteHeader, h])

/-! Claim theorems. -/

/-- C1: the data-access layer either returns the order or fails, passing
the driver's error value through unchanged; a no-row lookup therefore
fails with the driver's distinct no-rows sentinel - the spec's
NotFoundError, classified apart from any transport/query error - and a
create that hits a uniqueness-constraint violation fails with the server
error carrying SQLSTATE 23505 - the spec's DuplicateError, classified
apart from every other failure. -/
theorem getOrder_createOrder_error_kinds :
    (∀ row : CoffeeOrder, Database.GetCoffeeOrder (.ok row) = .ok row)
    ∧ (∀ e : PgErr, Database.GetCoffeeOrder (.error e) = .error e)
    ∧ (∀ e : PgErr, Database.CreateCoffeeOrder (.error e) = .error e)
    ∧ (∀ m, Database.GetCoffeeOrder (Except.error PgErr.noRows)
        ≠ Database.GetCoffeeOrder (Except.error (PgErr.ioFailure m)))
    ∧ specGetOrderKind .noRows = .notFoundError
    ∧ (∀ m, specGetOrderKind (.ioFailure m) = .queryError)
    ∧ (∀ c m, specGetOrderKind (.pgError c m) = .queryError)
    ∧ (∀ m, specCreateOrderKind (.pgError uniqueViolationCode m)
        = .duplicateError)
    ∧ (∀ c m, c ≠ uniqueViolationCode →
        specCreateOrderKind (.pgError c m) = .queryError)
    ∧ SpecDbErrorKind.notFoundError ≠ SpecDbErrorKind.queryError
    ∧ SpecDbErrorKind.duplicateError ≠ SpecDbErrorKind.queryError := by
  refine ⟨fun row => rfl, fun e => rfl, fun e => rfl, fun m => ?_, rfl,
    fun m => rfl, fun _ _ => rfl, fun m => ?_, fun c m h => ?_,
    by decide, by decide⟩
  · simp [Database.GetCoffeeOrder]
  · simp [specCreateOrderKind]
  · simp [specCreateOrderKind, h]

/-- Witness for C1: a non-duplicate SQLSTATE (57014, query_canceled)
classifies as a plain query error. -/
theorem getOrder_createOrder_error_kinds_witness :
    specCreateOrderKind (PgErr.pgError "57014" "canceled")
      = SpecDbErrorKind.queryError :=
  getOrder_createOrder_error_kinds.2.2.2.2.2.2.2.2.1 "57014" "canceled"
    (by decide)

/-- C2 counterexample: after the call sequence WriteHeader 201 then
WriteHeader 500, the wrapper's recorded status code is 500, not the first
call's code 201 - the wrapper does not record the first status code set. -/
theorem responseWriter_not_first_code :
    (runWriteHeaders newResponseWriter [201, 500]).statusCode = 500
    ∧ (runWriteHeaders newResponseWriter [201, 500]).statusCode ≠ 201 := by
  decide

/-- C2 (amended): the wrapper records the most recent status code set -
the last WriteHeader call's code, or the initial 200 when none occurs -
while the underlying net/http writer commits the first call's code to the
client; recorded and first agree whenever at most one WriteHeader call is
made, which holds for every handler in the repository. -/
theorem responseWriter_records_last (init : ResponseWriterState)
    (codes : List Nat) :
    (runWriteHeaders init codes).statusCode = codes.getLastD init.statusCode
    ∧ (runWriteHeaders newResponseWriter codes).underlyingSent = codes.head?
    ∧ (∀ c : Nat, (runWriteHeaders newResponseWriter [c]).statusCode = c)
    ∧ (runWriteHeaders newResponseWriter []).statusCode = 200 :=
  ⟨runWriteHeaders_statusCode codes init,
   runWriteHeaders_underlying_none codes newResponseWriter rfl,
   fun _ => rfl, rfl⟩

/-- C3: for every deserialized body, the Matus handler submits an order
with coffee_type "borovicka" and the request's unchanged user_name to the
data layer (whatever the driver outcome), and on a successful insert the
persisted row has those fields and the response is 201 carrying it. -/
theorem matusHandler_forces_borovicka (s : Store) (now : Int)
    (o : CreateCoffeeOrder) (e : PgErr) :
    (createCoffeeOrderMatusHandler s now (.ok o) (some e)).dbCalls
      = [.create ⟨o.userName, "borovicka"⟩]
    ∧ (createCoffeeOrderMatusHandler s now (.ok o) none).dbCalls
      = [.create ⟨o.userName, "borovicka"⟩]
    ∧ (createCoffeeOrderMatusHandler s now (.ok o) none).store.rows
      = s.rows ++ [⟨s.nextId, o.userName, "borovicka", now⟩]
    ∧ (createCoffeeOrderMatusHandler s now (.ok o) none).response
      = ⟨201, "application/json",
          .orderBody ⟨s.nextId, o.userName, "borovicka", now⟩⟩
    ∧ routeHandler "POST" "/make-coffee-matus" = some .matus :=
  ⟨rfl, rfl, rfl, rfl, by decide⟩

/-- C4: on every request body, well-formed or malformed, the Honza handler
answers 500 with an error body, performs no data-access call, and leaves
the store unchanged. -/
theorem honzaHandler_always_500_no_insert (s : Store)
    (decoded : DecodeResult) :
    (createCoffeeOrderHonzaHandler s decoded).response.status = 500
    ∧ (∃ msg, (createCoffeeOrderHonzaHandler s decoded).response.body
        = Body.errBody ⟨msg⟩)
    ∧ (createCoffeeOrderHonzaHandler s decoded).dbCalls = []
    ∧ (createCoffeeOrderHonzaHandler s decoded).store = s
    ∧ routeHandler "POST" "/make-coffee-honza" = some .honza := by
  cases decoded <;> exact ⟨rfl, ⟨_, rfl⟩, rfl, rfl, by decide⟩

/-- C5 counterexample: the health response body has no `region` field -
its JSON object carries exactly `status`, `timestamp`, `database` (see
HealthResponse in service/models.go), so the claim that the body contains
a `region` field fails. -/
theorem healthBody_no_region_field :
    ¬ ("region" ∈ (healthHandler true 0).body.jsonFields) := by
  decide

/-- C5 (amended): every /health response has status 200 and a JSON body
with exactly the fields status, timestamp and database (no region field),
where database is "healthy" precisely when the store Ping succeeds and
"unhealthy" when it fails, and a failed Ping still yields the same
well-formed 200 response. -/
theorem healthHandler_response (pingOk : Bool) (now : Int) :
    (healthHandler pingOk now).status = 200
    ∧ (healthHandler pingOk now).body.jsonFields
        = ["status", "timestamp", "database"]
    ∧ "region" ∉ (healthHandler pingOk now).body.jsonFields
    ∧ (healthHandler pingOk now).body.databaseField
        = some (if pingOk then "healthy" else "unhealthy")
    ∧ routeHandler "GET" "/health" = some .health := by
  cases pingOk <;>
    exact ⟨rfl, rfl, by simp [healthHandler, Body.jsonFields], rfl, by decide⟩

/-- C6: the tracing middleware names its span "<method> <path>", records
the captured response status as an attribute, and sets the final span
status to ok when the captured code is strictly below 400 and to error
with message "HTTP <code>" otherwise. -/
theorem tracingMiddleware_name_and_status (method path : String)
    (innerWrites : List Nat) :
    (tracingMiddleware method path innerWrites).name = method ++ " " ++ path
    ∧ (tracingMiddleware method path innerWrites).httpStatusAttr
        = (runWriteHeaders newResponseWriter innerWrites).statusCode
    ∧ (tracingMiddleware method path innerWrites).finalStatus
        = (if (runWriteHeaders newResponseWriter innerWrites).statusCode < 400
           then SpanStatus.ok ""
           else SpanStatus.err ("HTTP "
            ++ toString (runWriteHeaders newResponseWriter innerWrites).statusCode)) := by
  refine ⟨rfl, rfl, ?_⟩
  by_cases h : (runWriteHeaders newResponseWriter innerWrites).statusCode < 400
  · simp [tracingMiddleware, h, Nat.not_le.mpr h]
  · simp [tracingMiddleware, h, Nat.le_of_not_lt h]

/-- C7: the Mila handler persists through CreateCoffeeOrderInOneHour, so
the stored row's created_at is the insertion time plus two hours - in
particular strictly later than the time of insertion - and on success the
response is 201 carrying the persisted row. -/
theorem milaHandler_created_at_future (s : Store) (now : Int)
    (o : CreateCoffeeOrder) :
    (Database.CreateCoffeeOrderInOneHour s now o).2.createdAt
      = now + 2 * hourNs
    ∧ now < (Database.CreateCoffeeOrderInOneHour s now o).2.createdAt
    ∧ (createCoffeeOrderMilaHandler s now (.ok o) none).response
        = ⟨201, "application/json",
            .orderBody (Database.CreateCoffeeOrderInOneHour s now o).2⟩
    ∧ (createCoffeeOrderMilaHandler s now (.ok o) none).store.rows
        = s.rows ++ [(Database.CreateCoffeeOrderInOneHour s now o).2]
    ∧ routeHandler "POST" "/make-coffee-mila" = some .mila := by
  refine ⟨rfl, ?_, rfl, rfl, by decide⟩
  show now < now + 2 * hourNs
  simp [hourNs, secondNs]

/-- C8: for every deserialized body, the Tom handler sleeps three seconds
after decoding and before attempting the insert, so both the insert
attempt and the response happen no sooner than three seconds after the
request was received. -/
theorem tomHandler_sleeps_before_insert (s : Store)
    (t0 dDecode dInsert : Int) (o : CreateCoffeeOrder)
    (dbErr : Option PgErr) (h1 : 0 ≤ dDecode) (h2 : 0 ≤ dInsert) :
    (∃ t, (createCoffeeOrderTomHandler s t0 dDecode dInsert
            (.ok o) dbErr).insertAttemptTime = some t
        ∧ t0 + 3 * secondNs ≤ t)
    ∧ t0 + 3 * secondNs
        ≤ (createCoffeeOrderTomHandler s t0 dDecode dInsert
            (.ok o) dbErr).responseTime := by
  cases dbErr with
  | none =>
    refine ⟨⟨t0 + dDecode + 3 * secondNs, rfl, by omega⟩, ?_⟩
    show t0 + 3 * secondNs ≤ t0 + dDecode + 3 * secondNs + dInsert
    omega
  | some e =>
    refine ⟨⟨t0 + dDecode + 3 * secondNs, rfl, by omega⟩, ?_⟩
    show t0 + 3 * secondNs ≤ t0 + dDecode + 3 * secondNs + dInsert
    omega

/-- Witness for C8: a concrete run with zero decode and insert durations
responds exactly three seconds after receipt. -/
theorem tomHandler_sleeps_before_insert_witness :
    (0:Int) + 3 * secondNs
      ≤ (createCoffeeOrderTomHandler ⟨[], 1⟩ 0 0 0
          (.ok ⟨"Tom", "espresso"⟩) none).responseTime :=
  (tomHandler_sleeps_before_insert ⟨[], 1⟩ 0 0 0 ⟨"Tom", "espresso"⟩ none
    (by decide) (by decide)).2

/-! Helper lemmas: the decimal rendering of a natural number is never the
empty string (used for the request-id generator). -/

theorem toDigitsCore_len_ge (b : Nat) : ∀ (f n : Nat) (ds : List Char),
    ds.length ≤ (Nat.toDigitsCore b f n ds).length := by
  intro f
  induction f with
  | zero => intro n ds; simp [Nat.toDigitsCore]
  | succ f ih =>
    intro n ds
    rw [Nat.toDigitsCore]
    split
    · simp
    · exact Nat.le_trans (Nat.le_succ ds.length)
        (ih (n / b) (Nat.digitChar (n % b) :: ds))

theorem toDigits_len_pos (n : Nat) : 0 < (Nat.toDigits 10 n).length := by
  rw [Nat.toDigits, Nat.toDigitsCore]
  split
  · simp
  · exact Nat.lt_of_lt_of_le (by simp)
      (toDigitsCore_len_ge 10 n (n / 10) [Nat.digitChar (n % 10)])

theorem generateRequestID_ne_empty (t : Nat) : generateRequestID t ≠ "" := by
  intro h
  have hd : Nat.toDigits 10 t = [] := congrArg String.data h
  have hp := toDigits_len_pos t
  rw [hd] at hp
  simp at hp

/-- C9 counterexample: two distinct concurrent requests (different remote
addresses) that carry no inbound id and observe the same nanosecond clock
reading are assigned the same request id, and hence receive the same
X-Request-ID response header value - so "no two concurrent requests ever
receive the same X-Request-ID value" fails. -/
theorem requestId_collision :
    (⟨"10.0.0.1", "", 1700⟩ : InboundRequest) ≠ ⟨"10.0.0.2", "", 1700⟩
    ∧ assignRequestId ⟨"10.0.0.1", "", 1700⟩
        = assignRequestId ⟨"10.0.0.2", "", 1700⟩
    ∧ responseHeadersMiddleware (assignRequestId ⟨"10.0.0.1", "", 1700⟩)
        false "" [.bodyWrite]
      = responseHeadersMiddleware (assignRequestId ⟨"10.0.0.2", "", 1700⟩)
        false "" [.bodyWrite] :=
  ⟨by decide, rfl, rfl⟩

/-- C9 (amended): whenever the request context carries a non-empty id, the
middleware sets it as the X-Request-ID response header before any body
byte is written (it is the first writer event); the repository's own
fallback generator always returns a non-empty id, namely the decimal
rendering of the observed nanosecond clock reading - so the id depends
only on that reading and two requests observing equal readings receive
equal ids: uniqueness across concurrent requests is high-probability,
not absolute. -/
theorem responseHeaders_requestId (requestId traceId : String)
    (tv : Bool) (inner : List WriterEvent) (hid : requestId ≠ "") :
    (responseHeadersMiddleware requestId tv traceId inner).head?
      = some (.setHeader "X-Request-ID" requestId)
    ∧ (∀ t : Nat, generateRequestID t ≠ "")
    ∧ (∀ r : InboundRequest, r.upstreamId = "" →
        assignRequestId r = generateRequestID r.clockReading)
    ∧ (∀ r1 r2 : InboundRequest, r1.upstreamId = "" → r2.upstreamId = "" →
        r1.clockReading = r2.clockReading →
        assignRequestId r1 = assignRequestId r2) := by
  refine ⟨?_, generateRequestID_ne_empty, ?_, ?_⟩
  · simp [responseHeadersMiddleware, hid]
  · intro r h
    simp [assignRequestId, h]
  · intro r1 r2 h1 h2 hc
    simp [assignRequestId, h1, h2, hc]

/-- Witness for C9 (amended) at a concrete non-empty request id. -/
theorem responseHeaders_requestId_witness :
    (responseHeadersMiddleware "1700" false "" [.bodyWrite]).head?
      = some (.setHeader "X-Request-ID" "1700") :=
  (responseHeaders_requestId "1700" "" false [.bodyWrite] (by decide)).1

/-- C10: configuration loading is total and pure, and a variable set to
the empty string is treated exactly like an unset one: getEnv returns the
supplied default in both cases (for any key, hence for each of the seven
parameters), and LoadConfig yields the documented defaults on an all-unset
and an all-empty environment alike. -/
theorem loadConfig_empty_equals_unset :
    (∀ (env : String → Option String) (key d : String),
        getEnv (Function.update env key (some "")) key d = d
      ∧ getEnv (Function.update env key none) key d = d)
    ∧ LoadConfig (fun _ => none) = defaultConfig
    ∧ LoadConfig (fun _ => some "") = defaultConfig := by
  refine ⟨fun env key d => ⟨?_, ?_⟩, rfl, rfl⟩
  · simp [getEnv, osGetenv, Function.update_same]
  · simp [getEnv, osGetenv, Function.update_same]

end CoffeeDemo
